import Mathlib

/-!
Verification development for `distance_matrix_f.py`, a Streamlit utility that
reads a CSV of origin/destination coordinates plus an `endTime` column, queries
the Google Distance Matrix API once per row, and aggregates the per-row travel
metrics into a downloadable table.

The embedding below is a shallow, executable translation of the script.
External collaborators (the pandas timestamp parser `pd.to_datetime`, the
clock `date.today()`, and the `googlemaps` client) are modelled as explicit
oracles passed to the pipeline; everything else is translated line by line
from the source.  Streamlit's `st.error` / `st.warning` messages are modelled
structurally (constructor plus row index plus text) rather than as the exact
formatted strings.
-/

namespace DistanceMatrix

/-- A calendar date, as produced by `date.today()`. -/
structure Date where
  year : Nat
  month : Nat
  day : Nat
deriving Repr, DecidableEq

/-- A time of day, as produced by `pandas.Timestamp.time()`. -/
structure Time where
  hour : Nat
  minute : Nat
  second : Nat
deriving Repr, DecidableEq

/-- A datetime value (a date together with a time of day). -/
structure DateTime where
  date : Date
  time : Time
deriving Repr, DecidableEq

/-- Python `datetime.combine(d, t)` (source line 61). -/
def datetime_combine (d : Date) (t : Time) : DateTime := ⟨d, t⟩

/-- An inner `{text, value}` dictionary of a Distance Matrix response element
(`distance`, `duration`, `duration_in_traffic`).  Either key may be absent in
the raw JSON, in which case subscripting raises `KeyError`. -/
structure FieldDict where
  text : Option String
  value : Option Int
deriving Repr, DecidableEq

/-- Python subscript `fd['text']`: the value, or a raised `KeyError`. -/
def FieldDict.getText (fd : FieldDict) : Except String String :=
  match fd.text with
  | some t => Except.ok t
  | none => Except.error "KeyError: text"

/-- Python subscript `fd['value']`: the value, or a raised `KeyError`. -/
def FieldDict.getValue (fd : FieldDict) : Except String Int :=
  match fd.value with
  | some v => Except.ok v
  | none => Except.error "KeyError: value"

/-- One element of a Distance Matrix response
(`response['rows'][0]['elements'][0]`).  Every key may be absent. -/
structure Element where
  status : Option String
  distance : Option FieldDict
  duration : Option FieldDict
  duration_in_traffic : Option FieldDict
deriving Repr, DecidableEq

/-- One entry of the `rows` list of a Distance Matrix response. -/
structure RespRow where
  elements : Option (List Element)
deriving Repr, DecidableEq

/-- A Distance Matrix response; the `rows` key may be absent. -/
structure Response where
  rows : Option (List RespRow)
deriving Repr, DecidableEq

/-- Source line 80, `element = response['rows'][0]['elements'][0]`: each
missing key raises `KeyError` and each out-of-range index raises `IndexError`;
any of those is caught by the surrounding `except` (source line 105). -/
def Response.firstElement (resp : Response) : Except String Element :=
  match resp.rows with
  | none => Except.error "KeyError: rows"
  | some rs =>
    match rs.head? with
    | none => Except.error "IndexError: rows"
    | some r0 =>
      match r0.elements with
      | none => Except.error "KeyError: elements"
      | some es =>
        match es.head? with
        | none => Except.error "IndexError: elements"
        | some e => Except.ok e

/-- One input CSV row.  The coordinate cells are kept as their default decimal
text rendering, which is exactly what the f-strings on source lines 53 and 54
interpolate. -/
structure InputRow where
  OriginLat : String
  OriginLon : String
  DestLat : String
  DestLon : String
  endTime : String
deriving Repr, DecidableEq

/-- One record appended to `results` (source lines 96 to 104). -/
structure TravelResult where
  origin : String
  destination : String
  departureTime : DateTime
  distanceText : String
  distanceMeters : Option Int
  durationText : String
  durationSeconds : Int
deriving Repr, DecidableEq

/-- Outcome of processing one row of the DataFrame (one iteration of the loop
on source lines 51 to 106). -/
inductive RowOutcome where
  | timeParseError (msg : String)
  | queryError (msg : String)
  | statusWarning
  | extractionError (msg : String)
  | success (t : TravelResult)
deriving Repr, DecidableEq

/-- The records a row outcome contributes to `results`: one for a success,
none otherwise. -/
def RowOutcome.records : RowOutcome → List TravelResult
  | .success t => [t]
  | _ => []

/-- A user-visible per-row message (`st.error` or `st.warning`), modelled
structurally; the row index the message identifies is carried as a field. -/
inductive RowMessage where
  | errorMsg (rowIdx : Nat) (text : String)
  | warning (rowIdx : Nat) (text : String)
deriving Repr, DecidableEq

/-- The row index a message identifies. -/
def RowMessage.rowIdx : RowMessage → Nat
  | .errorMsg i _ => i
  | .warning i _ => i

/-- The message the script reports for a row outcome (source lines 63, 75, 82
and 106): every non-success outcome reports exactly one message naming the
row index; a success reports none. -/
def RowOutcome.message (idx : Nat) : RowOutcome → Option RowMessage
  | .timeParseError e => some (.errorMsg idx ("Error parsing endTime for row: " ++ e))
  | .queryError e => some (.errorMsg idx ("Error fetching data from Google API for row: " ++ e))
  | .statusWarning => some (.warning idx "API response status not OK. Skipping.")
  | .extractionError e => some (.errorMsg idx ("Error processing API response for row: " ++ e))
  | .success _ => none

/-- Source lines 85 and 86: `distance_text` defaults to `"N/A"` and
`distance_value` to `None` when the `distance` key is absent; when the key is
present, a missing inner `text` or `value` key raises. -/
def distancePair (e : Element) : Except String (String × Option Int) :=
  match e.distance with
  | none => Except.ok ("N/A", none)
  | some fd =>
    match fd.getText with
    | .error msg => .error msg
    | .ok t =>
      match fd.getValue with
      | .error msg => .error msg
      | .ok v => .ok (t, some v)

/-- Source lines 89 to 94: use `duration_in_traffic` exactly when the mode is
`"driving"` and that key is present in the element; otherwise use `duration`
(whose absence raises `KeyError`). -/
def durationPair (mode : String) (e : Element) : Except String (String × Int) :=
  if mode == "driving" && e.duration_in_traffic.isSome then
    match e.duration_in_traffic with
    | some fd =>
      match fd.getText with
      | .error msg => .error msg
      | .ok t =>
        match fd.getValue with
        | .error msg => .error msg
        | .ok v => .ok (t, v)
    | none => .error "unreachable"
  else
    match e.duration with
    | none => .error "KeyError: duration"
    | some fd =>
      match fd.getText with
      | .error msg => .error msg
      | .ok t =>
        match fd.getValue with
        | .error msg => .error msg
        | .ok v => .ok (t, v)

/-- Source lines 81 to 104, after the element has been obtained: the status
check (warning and skip unless `element.get('status')` equals `'OK'`), then
the distance defaults, the duration selection, and the appended record. -/
def processElement (mode origin destination : String) (departure : DateTime)
    (e : Element) : RowOutcome :=
  if e.status ≠ some "OK" then .statusWarning
  else
    match distancePair e with
    | .error msg => .extractionError msg
    | .ok (dText, dVal) =>
      match durationPair mode e with
      | .error msg => .extractionError msg
      | .ok (uText, uVal) =>
        .success ⟨origin, destination, departure, dText, dVal, uText, uVal⟩

/-- Source lines 79 to 106: the whole extraction `try` block.  A raised lookup
error while obtaining the element becomes a row-scoped extraction error. -/
def extractResponse (mode origin destination : String) (departure : DateTime)
    (resp : Response) : RowOutcome :=
  match resp.firstElement with
  | .error msg => .extractionError msg
  | .ok e => processElement mode origin destination departure e

/-- One loop iteration (source lines 51 to 106).  `to_datetime` is the oracle
for `pd.to_datetime` (result or raised parse error), `today` the value of
`date.today()` at this iteration, and `query` the oracle for
`gmaps.distance_matrix` (response or raised transport error). -/
def processRow (mode : String) (to_datetime : String → Except String DateTime)
    (today : Date) (query : String → String → DateTime → Except String Response)
    (row : InputRow) : RowOutcome :=
  let origin := row.OriginLat ++ "," ++ row.OriginLon
  let destination := row.DestLat ++ "," ++ row.DestLon
  match to_datetime row.endTime with
  | .error e => .timeParseError e
  | .ok parsed =>
    let departure := datetime_combine today parsed.time
    match query origin destination departure with
    | .error e => .queryError e
    | .ok resp => extractResponse mode origin destination departure resp

/-- The loop over the DataFrame rows (source lines 51 to 106), collecting the
appended records in order.  `todayAt i` is the value `date.today()` returns
while row `i` is processed (the call happens once per iteration, source line
61), and `queryAt i` is the network behaviour of the API call issued for row
`i`. -/
def runFrom (mode : String) (to_datetime : String → Except String DateTime)
    (todayAt : Nat → Date)
    (queryAt : Nat → String → String → DateTime → Except String Response) :
    Nat → List InputRow → List TravelResult
  | _, [] => []
  | idx, row :: rest =>
    match processRow mode to_datetime (todayAt idx) (queryAt idx) row with
    | .success t => t :: runFrom mode to_datetime todayAt queryAt (idx + 1) rest
    | _ => runFrom mode to_datetime todayAt queryAt (idx + 1) rest

/-- Source line 44. -/
def required_cols : List String :=
  ["OriginLat", "OriginLon", "DestLat", "DestLon", "endTime"]

/-- Source line 45, `all(col in df.columns for col in required_cols)`. -/
def hasRequiredCols (columns : List String) : Bool :=
  required_cols.all (fun col => columns.contains col)

/-- Source line 46: the error message shown when the column check fails; it
enumerates every required column name. -/
def missingColsMessage : String :=
  "CSV file must contain columns: " ++ String.intercalate ", " required_cols

/-- A parsed DataFrame: its column names and its rows. -/
structure CSVTable where
  columns : List String
  rows : List InputRow
deriving Repr, DecidableEq

/-- The constructed `googlemaps.Client`, abstracted to the one method the
script calls; the first argument is the per-call index modelling the state of
the network at that call. -/
structure GClient where
  distance_matrix : Nat → String → String → DateTime → Except String Response

/-- Overall outcome of pressing Calculate with a file uploaded and a non-empty
key.  When `pd.read_csv` raises (source lines 37 to 41), the error is shown
and `df` is left unbound, so the reference to `df.columns` on source line 45
raises an uncaught `NameError` that aborts the run: nothing after the load is
performed. -/
inductive RunResult where
  | fatalLoadError (msg : String)
  | missingColumns (msg : String)
  | completed (results : List TravelResult)
deriving Repr, DecidableEq

/-- The query function the loop actually uses.  When client construction
raised (source lines 32 to 35), the exception was only reported and `gmaps`
was left unbound, so every call on source line 68 raises `NameError`, caught
by the per-row `except` on source line 74. -/
def queryOf (clientResult : Except String GClient) :
    Nat → String → String → DateTime → Except String Response :=
  fun idx o d dep =>
    match clientResult with
    | .error _ => Except.error "NameError: name gmaps is not defined"
    | .ok client => client.distance_matrix idx o d dep

/-- The whole Calculate handler after the file and key guards (source lines
30 to 106): client construction outcome, CSV load outcome, column check, then
the row loop. -/
def runCalculate (clientResult : Except String GClient)
    (loadResult : Except String CSVTable) (mode : String)
    (to_datetime : String → Except String DateTime)
    (todayAt : Nat → Date) : RunResult :=
  match loadResult with
  | .error e => .fatalLoadError e
  | .ok table =>
    if hasRequiredCols table.columns then
      .completed (runFrom mode to_datetime todayAt (queryOf clientResult) 0 table.rows)
    else
      .missingColumns missingColsMessage

/-! ### Sample data used by the witness theorems -/

/-- A concrete stand-in for `pd.to_datetime` that parses exactly the sample
timestamp used in the witnesses. -/
def sampleParse : String → Except String DateTime :=
  fun s =>
    if s = "2023-01-01 14:30:00" then Except.ok ⟨⟨2023, 1, 1⟩, ⟨14, 30, 0⟩⟩
    else Except.error "could not parse"

/-- A fully populated element with OK status and no traffic field. -/
def sampleElement : Element :=
  ⟨some "OK", some ⟨some "5 km", some 5000⟩, some ⟨some "10 mins", some 600⟩, none⟩

/-- A well-formed response wrapping `sampleElement`. -/
def sampleResponse : Response := ⟨some [⟨some [sampleElement]⟩]⟩

/-- A query oracle that always returns `sampleResponse`. -/
def sampleQuery : String → String → DateTime → Except String Response :=
  fun _ _ _ => Except.ok sampleResponse

/-- A sample input row with the sample timestamp. -/
def sampleRow : InputRow :=
  ⟨"23.8103", "90.4125", "23.7806", "90.2794", "2023-01-01 14:30:00"⟩

/-- The record the pipeline produces for `sampleRow` on 2024-06-10. -/
def sampleResult : TravelResult :=
  ⟨"23.8103,90.4125", "23.7806,90.2794", ⟨⟨2024, 6, 10⟩, ⟨14, 30, 0⟩⟩,
    "5 km", some 5000, "10 mins", 600⟩

/-- A client whose every call returns `sampleResponse`. -/
def sampleClient : GClient := ⟨fun _ _ _ _ => Except.ok sampleResponse⟩

/-- A row whose `endTime` cell `sampleParse` cannot parse. -/
def badRow : InputRow := ⟨"1.5", "2.5", "3.5", "4.5", "not a timestamp"⟩

/-! ### Helper lemmas -/

/-- A successful extraction echoes the origin, destination and departure time
it was given into the produced record. -/
theorem processElement_success_fields (mode o d : String) (dep : DateTime)
    (e : Element) (t : TravelResult)
    (h : processElement mode o d dep e = RowOutcome.success t) :
    t.origin = o ∧ t.destination = d ∧ t.departureTime = dep := by
  unfold processElement at h
  split at h
  · cases h
  · split at h
    · cases h
    · split at h
      · cases h
      · cases h
        exact ⟨rfl, rfl, rfl⟩

/-! ### Claim theorems -/

/-- Claim C1: for every response element and selected mode, the extracted
duration equals the element's `duration_in_traffic` text/value exactly when
the mode is `"driving"` and the element contains that field, and equals the
plain `duration` text/value in every other case (in particular a present
traffic field is ignored for non-driving modes). -/
theorem C1_duration_selection (mode o d : String) (dep : DateTime) (e : Element)
    (tText uText : String) (tVal uVal : Int)
    (hok : e.status = some "OK")
    (hdist : e.distance = none ∨ ∃ s v, e.distance = some ⟨some s, some v⟩) :
    ((mode = "driving" ∧ e.duration_in_traffic = some ⟨some tText, some tVal⟩) →
      ∃ t, processElement mode o d dep e = RowOutcome.success t ∧
        t.durationText = tText ∧ t.durationSeconds = tVal) ∧
    (((mode ≠ "driving" ∨ e.duration_in_traffic = none) ∧
        e.duration = some ⟨some uText, some uVal⟩) →
      ∃ t, processElement mode o d dep e = RowOutcome.success t ∧
        t.durationText = uText ∧ t.durationSeconds = uVal) := by
  obtain ⟨dText, dVal, hd⟩ :
      ∃ dText dVal, distancePair e = Except.ok (dText, dVal) := by
    rcases hdist with h | ⟨s, v, h⟩
    · exact ⟨"N/A", none, by simp [distancePair, h]⟩
    · exact ⟨s, some v,
        by simp [distancePair, h, FieldDict.getText, FieldDict.getValue]⟩
  constructor
  · rintro ⟨hm, ht⟩
    have hdur : durationPair mode e = Except.ok (tText, tVal) := by
      simp [durationPair, hm, ht, FieldDict.getText, FieldDict.getValue]
    exact ⟨⟨o, d, dep, dText, dVal, tText, tVal⟩,
      by simp [processElement, hok, hd, hdur], rfl, rfl⟩
  · rintro ⟨hm, hu⟩
    have hcond : (mode == "driving" && e.duration_in_traffic.isSome) = false := by
      rcases hm with hm | hm
      · simp [hm]
      · simp [hm]
    have hdur : durationPair mode e = Except.ok (uText, uVal) := by
      simp only [durationPair, hcond, Bool.false_eq_true, if_false, hu,
        FieldDict.getText, FieldDict.getValue]
    exact ⟨⟨o, d, dep, dText, dVal, uText, uVal⟩,
      by simp [processElement, hok, hd, hdur], rfl, rfl⟩

/-- Witness for C1: a driving-mode element with duration 600 s and
duration-in-traffic 750 s yields 750 s, and the same element queried in
walking mode yields 600 s. -/
theorem C1_duration_selection_witness :
    (∃ t, processElement "driving" "1,2" "3,4" ⟨⟨2024, 6, 10⟩, ⟨14, 30, 0⟩⟩
        ⟨some "OK", some ⟨some "5 km", some 5000⟩, some ⟨some "10 mins", some 600⟩,
          some ⟨some "12 mins", some 750⟩⟩ = RowOutcome.success t ∧
      t.durationText = "12 mins" ∧ t.durationSeconds = 750) ∧
    (∃ t, processElement "walking" "1,2" "3,4" ⟨⟨2024, 6, 10⟩, ⟨14, 30, 0⟩⟩
        ⟨some "OK", some ⟨some "5 km", some 5000⟩, some ⟨some "10 mins", some 600⟩,
          some ⟨some "12 mins", some 750⟩⟩ = RowOutcome.success t ∧
      t.durationText = "10 mins" ∧ t.durationSeconds = 600) :=
  ⟨(C1_duration_selection "driving" "1,2" "3,4" ⟨⟨2024, 6, 10⟩, ⟨14, 30, 0⟩⟩
      ⟨some "OK", some ⟨some "5 km", some 5000⟩, some ⟨some "10 mins", some 600⟩,
        some ⟨some "12 mins", some 750⟩⟩
      "12 mins" "10 mins" 750 600 rfl (Or.inr ⟨"5 km", 5000, rfl⟩)).1 ⟨rfl, rfl⟩,
   (C1_duration_selection "walking" "1,2" "3,4" ⟨⟨2024, 6, 10⟩, ⟨14, 30, 0⟩⟩
      ⟨some "OK", some ⟨some "5 km", some 5000⟩, some ⟨some "10 mins", some 600⟩,
        some ⟨some "12 mins", some 750⟩⟩
      "12 mins" "10 mins" 750 600 rfl (Or.inr ⟨"5 km", 5000, rfl⟩)).2
     ⟨Or.inl (by decide), rfl⟩⟩

/-- Claim C2: for every row whose endTime parses, the derived departure time
combines the calendar date current at the moment that row is processed (the
per-row value of `date.today()`, not a value frozen at run start) with the
time-of-day of the parsed endTime; the date components of endTime are
discarded. -/
theorem C2_departure_combines_today (mode : String)
    (to_datetime : String → Except String DateTime) :
    (∀ (today : Date) (query : String → String → DateTime → Except String Response)
        (row : InputRow) (parsed : DateTime) (t : TravelResult),
        to_datetime row.endTime = Except.ok parsed →
        processRow mode to_datetime today query row = RowOutcome.success t →
        t.departureTime = datetime_combine today parsed.time) ∧
    (∀ (todayAt : Nat → Date)
        (queryAt : Nat → String → String → DateTime → Except String Response)
        (idx : Nat) (rows : List InputRow) (t : TravelResult),
        t ∈ runFrom mode to_datetime todayAt queryAt idx rows →
        ∃ i row parsed, (i, row) ∈ rows.enumFrom idx ∧
          to_datetime row.endTime = Except.ok parsed ∧
          t.departureTime = datetime_combine (todayAt i) parsed.time) := by
  have part1 : ∀ (today : Date)
      (query : String → String → DateTime → Except String Response)
      (row : InputRow) (parsed : DateTime) (t : TravelResult),
      to_datetime row.endTime = Except.ok parsed →
      processRow mode to_datetime today query row = RowOutcome.success t →
      t.departureTime = datetime_combine today parsed.time := by
    intro today query row parsed t hp h
    simp only [processRow, hp] at h
    split at h
    · cases h
    · unfold extractResponse at h
      split at h
      · cases h
      · exact (processElement_success_fields _ _ _ _ _ _ h).2.2
  refine ⟨part1, ?_⟩
  intro todayAt queryAt idx rows
  induction rows generalizing idx with
  | nil =>
    intro t hmem
    simp [runFrom] at hmem
  | cons row rest ih =>
    intro t hmem
    cases hpr : processRow mode to_datetime (todayAt idx) (queryAt idx) row with
    | success t0 =>
      simp only [runFrom, hpr] at hmem
      rcases List.mem_cons.mp hmem with heq | hmem2
      · subst heq
        cases hp : to_datetime row.endTime with
        | error e => simp [processRow, hp] at hpr
        | ok parsed =>
          refine ⟨idx, row, parsed, ?_, hp, part1 _ _ _ _ _ hp hpr⟩
          simp [List.enumFrom]
      · obtain ⟨i, r, parsed, hmemi, hpi, hti⟩ := ih (idx + 1) t hmem2
        exact ⟨i, r, parsed, List.mem_cons_of_mem _ hmemi, hpi, hti⟩
    | timeParseError e =>
      simp only [runFrom, hpr] at hmem
      obtain ⟨i, r, parsed, hmemi, hpi, hti⟩ := ih (idx + 1) t hmem
      exact ⟨i, r, parsed, List.mem_cons_of_mem _ hmemi, hpi, hti⟩
    | queryError e =>
      simp only [runFrom, hpr] at hmem
      obtain ⟨i, r, parsed, hmemi, hpi, hti⟩ := ih (idx + 1) t hmem
      exact ⟨i, r, parsed, List.mem_cons_of_mem _ hmemi, hpi, hti⟩
    | statusWarning =>
      simp only [runFrom, hpr] at hmem
      obtain ⟨i, r, parsed, hmemi, hpi, hti⟩ := ih (idx + 1) t hmem
      exact ⟨i, r, parsed, List.mem_cons_of_mem _ hmemi, hpi, hti⟩
    | extractionError e =>
      simp only [runFrom, hpr] at hmem
      obtain ⟨i, r, parsed, hmemi, hpi, hti⟩ := ih (idx + 1) t hmem
      exact ⟨i, r, parsed, List.mem_cons_of_mem _ hmemi, hpi, hti⟩

/-- Witness for C2: endTime 2023-01-01 14:30:00 processed when today is
2024-06-10 yields departure time 2024-06-10 14:30:00. -/
theorem C2_departure_combines_today_witness :
    sampleParse "2023-01-01 14:30:00" = Except.ok ⟨⟨2023, 1, 1⟩, ⟨14, 30, 0⟩⟩ ∧
    processRow "walking" sampleParse ⟨2024, 6, 10⟩ sampleQuery sampleRow =
      RowOutcome.success sampleResult ∧
    sampleResult.departureTime = datetime_combine ⟨2024, 6, 10⟩ ⟨14, 30, 0⟩ :=
  ⟨rfl, by decide,
   (C2_departure_combines_today "walking" sampleParse).1 ⟨2024, 6, 10⟩ sampleQuery
     sampleRow ⟨⟨2023, 1, 1⟩, ⟨14, 30, 0⟩⟩ sampleResult rfl (by decide)⟩

set_option maxRecDepth 4000 in
/-- Claim C3: column validation succeeds exactly when all five required
columns are present; when any are missing, every missing column name occurs in
the reported message, and the run halts before any row is processed. -/
theorem C3_column_validation (columns : List String) :
    (hasRequiredCols columns = true ↔ ∀ c ∈ required_cols, c ∈ columns) ∧
    (∀ c ∈ required_cols, c ∉ columns → c.data <:+: missingColsMessage.data) ∧
    (∀ (clientResult : Except String GClient) (mode : String)
        (to_datetime : String → Except String DateTime) (todayAt : Nat → Date)
        (rows : List InputRow),
        hasRequiredCols columns = false →
        runCalculate clientResult (Except.ok ⟨columns, rows⟩) mode to_datetime
          todayAt = RunResult.missingColumns missingColsMessage) := by
  refine ⟨?_, ?_, ?_⟩
  · simp [hasRequiredCols, List.all_eq_true, List.elem_iff]
  · intro c hc _
    fin_cases hc <;> decide
  · intro clientResult mode to_datetime todayAt rows hfalse
    simp [runCalculate, hfalse]

set_option maxRecDepth 4000 in
/-- Witness for C3: with the `endTime` column removed, validation fails, the
missing name occurs in the message, and the run yields no results. -/
theorem C3_column_validation_witness :
    hasRequiredCols ["OriginLat", "OriginLon", "DestLat", "DestLon"] = false ∧
    "endTime".data <:+: missingColsMessage.data ∧
    runCalculate (Except.ok sampleClient)
      (Except.ok ⟨["OriginLat", "OriginLon", "DestLat", "DestLon"], [sampleRow]⟩)
      "driving" sampleParse (fun _ => ⟨2024, 6, 10⟩) =
      RunResult.missingColumns missingColsMessage :=
  ⟨by decide,
   (C3_column_validation ["OriginLat", "OriginLon", "DestLat", "DestLon"]).2.1
     "endTime" (by decide) (by decide),
   (C3_column_validation ["OriginLat", "OriginLon", "DestLat", "DestLon"]).2.2
     (Except.ok sampleClient) "driving" sampleParse (fun _ => ⟨2024, 6, 10⟩)
     [sampleRow] (by decide)⟩

/-- Claim C4: a row that fails at any stage is skipped alone: it contributes
no record, exactly one message naming its row index is reported, and the loop
continues with the remaining rows unchanged. -/
theorem C4_row_failure_isolated (mode : String)
    (to_datetime : String → Except String DateTime) (todayAt : Nat → Date)
    (queryAt : Nat → String → String → DateTime → Except String Response)
    (idx : Nat) (row : InputRow) (rest : List InputRow)
    (hfail : ∀ t, processRow mode to_datetime (todayAt idx) (queryAt idx) row ≠
      RowOutcome.success t) :
    runFrom mode to_datetime todayAt queryAt idx (row :: rest) =
      runFrom mode to_datetime todayAt queryAt (idx + 1) rest ∧
    (processRow mode to_datetime (todayAt idx) (queryAt idx) row).records = [] ∧
    ∃ m, (processRow mode to_datetime (todayAt idx) (queryAt idx) row).message idx =
      some m ∧ m.rowIdx = idx := by
  cases hpr : processRow mode to_datetime (todayAt idx) (queryAt idx) row with
  | success t => exact absurd hpr (hfail t)
  | timeParseError e =>
    exact ⟨by simp [runFrom, hpr], by simp [hpr, RowOutcome.records],
      ⟨RowMessage.errorMsg idx ("Error parsing endTime for row: " ++ e),
        by simp [hpr, RowOutcome.message], rfl⟩⟩
  | queryError e =>
    exact ⟨by simp [runFrom, hpr], by simp [hpr, RowOutcome.records],
      ⟨RowMessage.errorMsg idx ("Error fetching data from Google API for row: " ++ e),
        by simp [hpr, RowOutcome.message], rfl⟩⟩
  | statusWarning =>
    exact ⟨by simp [runFrom, hpr], by simp [hpr, RowOutcome.records],
      ⟨RowMessage.warning idx "API response status not OK. Skipping.",
        by simp [hpr, RowOutcome.message], rfl⟩⟩
  | extractionError e =>
    exact ⟨by simp [runFrom, hpr], by simp [hpr, RowOutcome.records],
      ⟨RowMessage.errorMsg idx ("Error processing API response for row: " ++ e),
        by simp [hpr, RowOutcome.message], rfl⟩⟩

/-- Witness for C4: a row with an unparseable endTime in front of a good row
is skipped with a message naming index 0 while the good row still succeeds. -/
theorem C4_row_failure_isolated_witness :
    runFrom "walking" sampleParse (fun _ => ⟨2024, 6, 10⟩) (fun _ => sampleQuery)
      0 (badRow :: [sampleRow]) =
      runFrom "walking" sampleParse (fun _ => ⟨2024, 6, 10⟩) (fun _ => sampleQuery)
        1 [sampleRow] ∧
    (processRow "walking" sampleParse ⟨2024, 6, 10⟩ sampleQuery badRow).records = [] ∧
    ∃ m, (processRow "walking" sampleParse ⟨2024, 6, 10⟩ sampleQuery badRow).message 0 =
      some m ∧ m.rowIdx = 0 :=
  C4_row_failure_isolated "walking" sampleParse (fun _ => ⟨2024, 6, 10⟩)
    (fun _ => sampleQuery) 0 badRow [sampleRow]
    (by
      intro t h
      have hbad : processRow "walking" sampleParse ⟨2024, 6, 10⟩ sampleQuery badRow =
          RowOutcome.timeParseError "could not parse" := by decide
      rw [hbad] at h
      cases h)

/-- Claim C5: the collected result list is exactly one record for each input
row that survives every stage, zero for each failing row, in input row
order. -/
theorem C5_one_record_per_survivor (mode : String)
    (to_datetime : String → Except String DateTime) (todayAt : Nat → Date)
    (queryAt : Nat → String → String → DateTime → Except String Response)
    (idx : Nat) (rows : List InputRow) :
    runFrom mode to_datetime todayAt queryAt idx rows =
      (rows.enumFrom idx).filterMap (fun p =>
        match processRow mode to_datetime (todayAt p.1) (queryAt p.1) p.2 with
        | RowOutcome.success t => some t
        | _ => none) := by
  induction rows generalizing idx with
  | nil => rfl
  | cons row rest ih =>
    simp only [List.enumFrom, List.filterMap_cons]
    cases h : processRow mode to_datetime (todayAt idx) (queryAt idx) row with
    | success t => simp [runFrom, h, ih]
    | timeParseError e => simp [runFrom, h, ih]
    | queryError e => simp [runFrom, h, ih]
    | statusWarning => simp [runFrom, h, ih]
    | extractionError e => simp [runFrom, h, ih]

/-- Claim C6: an OK element without a `distance` field is not an error: the
distance text defaults to the explicit N/A marker and the numeric value is
absent, while the duration fields are extracted normally and the row still
produces exactly one output record. -/
theorem C6_missing_distance_defaults (mode o d : String) (dep : DateTime)
    (e : Element) (uText : String) (uVal : Int)
    (hok : e.status = some "OK") (hdist : e.distance = none)
    (htraffic : e.duration_in_traffic = none)
    (hdur : e.duration = some ⟨some uText, some uVal⟩) :
    processElement mode o d dep e =
      RowOutcome.success ⟨o, d, dep, "N/A", none, uText, uVal⟩ ∧
    (processElement mode o d dep e).records =
      [⟨o, d, dep, "N/A", none, uText, uVal⟩] := by
  have h : processElement mode o d dep e =
      RowOutcome.success ⟨o, d, dep, "N/A", none, uText, uVal⟩ := by
    simp [processElement, hok, distancePair, hdist, durationPair, htraffic, hdur,
      FieldDict.getText, FieldDict.getValue]
  exact ⟨h, by simp [h, RowOutcome.records]⟩

/-- Witness for C6: a concrete OK element lacking `distance` still yields one
record with distance text N/A and no numeric distance. -/
theorem C6_missing_distance_defaults_witness :
    processElement "transit" "1,2" "3,4" ⟨⟨2024, 6, 10⟩, ⟨9, 0, 0⟩⟩
      ⟨some "OK", none, some ⟨some "10 mins", some 600⟩, none⟩ =
      RowOutcome.success
        ⟨"1,2", "3,4", ⟨⟨2024, 6, 10⟩, ⟨9, 0, 0⟩⟩, "N/A", none, "10 mins", 600⟩ ∧
    (processElement "transit" "1,2" "3,4" ⟨⟨2024, 6, 10⟩, ⟨9, 0, 0⟩⟩
      ⟨some "OK", none, some ⟨some "10 mins", some 600⟩, none⟩).records =
      [⟨"1,2", "3,4", ⟨⟨2024, 6, 10⟩, ⟨9, 0, 0⟩⟩, "N/A", none, "10 mins", 600⟩] :=
  C6_missing_distance_defaults "transit" "1,2" "3,4" ⟨⟨2024, 6, 10⟩, ⟨9, 0, 0⟩⟩
    ⟨some "OK", none, some ⟨some "10 mins", some 600⟩, none⟩ "10 mins" 600
    rfl rfl rfl rfl

/-- Claim C7: when the uploaded bytes cannot be parsed as a CSV, the run fails
with the load error, no column validation outcome is reached, and no row is
processed. -/
theorem C7_load_failure_fatal (clientResult : Except String GClient)
    (mode : String) (to_datetime : String → Except String DateTime)
    (todayAt : Nat → Date) (e : String) :
    runCalculate clientResult (Except.error e) mode to_datetime todayAt =
      RunResult.fatalLoadError e ∧
    (∀ res, runCalculate clientResult (Except.error e) mode to_datetime todayAt ≠
      RunResult.completed res) ∧
    (∀ m, runCalculate clientResult (Except.error e) mode to_datetime todayAt ≠
      RunResult.missingColumns m) :=
  ⟨rfl, fun _ h => RunResult.noConfusion h, fun _ h => RunResult.noConfusion h⟩

/-- Witness for C7: a concrete failed load yields the fatal load error. -/
theorem C7_load_failure_fatal_witness :
    runCalculate (Except.ok sampleClient) (Except.error "could not parse CSV")
      "driving" sampleParse (fun _ => ⟨2024, 6, 10⟩) =
      RunResult.fatalLoadError "could not parse CSV" :=
  (C7_load_failure_fatal (Except.ok sampleClient) "driving" sampleParse
    (fun _ => ⟨2024, 6, 10⟩) "could not parse CSV").1

/-- Claim C8: a failed client construction is only reported, not fatal: the
run still reaches the per-row loop, and there every query raises the unbound
name error, so each row that passes time parsing fails at the query stage. -/
theorem C8_client_failure_falls_through (ce mode : String)
    (to_datetime : String → Except String DateTime) (todayAt : Nat → Date)
    (table : CSVTable) (hcols : hasRequiredCols table.columns = true) :
    runCalculate (Except.error ce) (Except.ok table) mode to_datetime todayAt =
      RunResult.completed
        (runFrom mode to_datetime todayAt (queryOf (Except.error ce)) 0 table.rows) ∧
    (∀ idx o d dep, queryOf (Except.error ce) idx o d dep =
      Except.error "NameError: name gmaps is not defined") ∧
    (∀ (today : Date) (idx : Nat) (row : InputRow) (parsed : DateTime),
      to_datetime row.endTime = Except.ok parsed →
      processRow mode to_datetime today (queryOf (Except.error ce) idx) row =
        RowOutcome.queryError "NameError: name gmaps is not defined") := by
  refine ⟨by simp [runCalculate, hcols], fun idx o d dep => rfl, ?_⟩
  intro today idx row parsed hp
  simp [processRow, hp, queryOf]

/-- Witness for C8: with a failed client and a valid table, the run completes
into the loop and the sample row fails at the query stage. -/
theorem C8_client_failure_falls_through_witness :
    runCalculate (Except.error "invalid key") (Except.ok ⟨required_cols, [sampleRow]⟩)
      "driving" sampleParse (fun _ => ⟨2024, 6, 10⟩) =
      RunResult.completed
        (runFrom "driving" sampleParse (fun _ => ⟨2024, 6, 10⟩)
          (queryOf (Except.error "invalid key")) 0 [sampleRow]) ∧
    processRow "driving" sampleParse ⟨2024, 6, 10⟩
      (queryOf (Except.error "invalid key") 0) sampleRow =
      RowOutcome.queryError "NameError: name gmaps is not defined" :=
  ⟨(C8_client_failure_falls_through "invalid key" "driving" sampleParse
      (fun _ => ⟨2024, 6, 10⟩) ⟨required_cols, [sampleRow]⟩ (by decide)).1,
   (C8_client_failure_falls_through "invalid key" "driving" sampleParse
      (fun _ => ⟨2024, 6, 10⟩) ⟨required_cols, [sampleRow]⟩ (by decide)).2.2
     ⟨2024, 6, 10⟩ 0 sampleRow ⟨⟨2023, 1, 1⟩, ⟨14, 30, 0⟩⟩ rfl⟩

/-- Claim C9: an element with no status key at all is treated exactly like one
whose status is not OK: the row is skipped with a warning, not an extraction
error, contributes no record, and the loop continues. -/
theorem C9_missing_status_skipped_with_warning (mode o d : String)
    (dep : DateTime) (e : Element) (h : e.status = none) :
    processElement mode o d dep e = RowOutcome.statusWarning ∧
    (processElement mode o d dep e).records = [] ∧
    (∀ idx, ∃ s, (processElement mode o d dep e).message idx =
      some (RowMessage.warning idx s)) ∧
    (∀ (to_datetime : String → Except String DateTime) (todayAt : Nat → Date)
        (queryAt : Nat → String → String → DateTime → Except String Response)
        (idx : Nat) (row : InputRow) (rest : List InputRow),
        processRow mode to_datetime (todayAt idx) (queryAt idx) row =
          RowOutcome.statusWarning →
        runFrom mode to_datetime todayAt queryAt idx (row :: rest) =
          runFrom mode to_datetime todayAt queryAt (idx + 1) rest) := by
  have hw : processElement mode o d dep e = RowOutcome.statusWarning := by
    simp [processElement, h]
  refine ⟨hw, by simp [hw, RowOutcome.records], ?_, ?_⟩
  · intro idx
    exact ⟨"API response status not OK. Skipping.",
      by simp [hw, RowOutcome.message]⟩
  · intro to_datetime todayAt queryAt idx row rest hpr
    simp [runFrom, hpr]

/-- Witness for C9: a concrete element without a status key yields the
warning outcome and no record. -/
theorem C9_missing_status_skipped_with_warning_witness :
    processElement "driving" "1,2" "3,4" ⟨⟨2024, 6, 10⟩, ⟨9, 0, 0⟩⟩
      ⟨none, none, some ⟨some "10 mins", some 600⟩, none⟩ =
      RowOutcome.statusWarning ∧
    (processElement "driving" "1,2" "3,4" ⟨⟨2024, 6, 10⟩, ⟨9, 0, 0⟩⟩
      ⟨none, none, some ⟨some "10 mins", some 600⟩, none⟩).records = [] :=
  ⟨(C9_missing_status_skipped_with_warning "driving" "1,2" "3,4"
      ⟨⟨2024, 6, 10⟩, ⟨9, 0, 0⟩⟩
      ⟨none, none, some ⟨some "10 mins", some 600⟩, none⟩ rfl).1,
   (C9_missing_status_skipped_with_warning "driving" "1,2" "3,4"
      ⟨⟨2024, 6, 10⟩, ⟨9, 0, 0⟩⟩
      ⟨none, none, some ⟨some "10 mins", some 600⟩, none⟩ rfl).2.1⟩

/-- Claim C10: a response with no rows key, an empty rows list, or an empty
elements list in its first row entry makes the element lookup fail, which is
caught as a row-scoped extraction error: the row contributes nothing and the
loop continues instead of the run aborting. -/
theorem C10_malformed_response_row_scoped (mode o d : String) (dep : DateTime) :
    (∀ resp : Response, resp.rows = none →
      extractResponse mode o d dep resp =
        RowOutcome.extractionError "KeyError: rows") ∧
    (∀ resp : Response, resp.rows = some [] →
      extractResponse mode o d dep resp =
        RowOutcome.extractionError "IndexError: rows") ∧
    (∀ (resp : Response) (r0 : RespRow) (rs : List RespRow),
      resp.rows = some (r0 :: rs) → r0.elements = some [] →
      extractResponse mode o d dep resp =
        RowOutcome.extractionError "IndexError: elements") ∧
    (∀ msg, (RowOutcome.extractionError msg).records = ([] : List TravelResult)) ∧
    (∀ (to_datetime : String → Except String DateTime) (todayAt : Nat → Date)
        (queryAt : Nat → String → String → DateTime → Except String Response)
        (idx : Nat) (row : InputRow) (rest : List InputRow) (msg : String),
        processRow mode to_datetime (todayAt idx) (queryAt idx) row =
          RowOutcome.extractionError msg →
        runFrom mode to_datetime todayAt queryAt idx (row :: rest) =
          runFrom mode to_datetime todayAt queryAt (idx + 1) rest) := by
  refine ⟨?_, ?_, ?_, fun msg => rfl, ?_⟩
  · intro resp hr
    simp [extractResponse, Response.firstElement, hr]
  · intro resp hr
    simp [extractResponse, Response.firstElement, hr]
  · intro resp r0 rs hr he
    simp [extractResponse, Response.firstElement, hr, he]
  · intro to_datetime todayAt queryAt idx row rest msg hpr
    simp [runFrom, hpr]

/-- Witness for C10: the three concrete malformed response shapes each yield
a row-scoped extraction error. -/
theorem C10_malformed_response_row_scoped_witness :
    extractResponse "driving" "1,2" "3,4" ⟨⟨2024, 6, 10⟩, ⟨9, 0, 0⟩⟩ ⟨none⟩ =
      RowOutcome.extractionError "KeyError: rows" ∧
    extractResponse "driving" "1,2" "3,4" ⟨⟨2024, 6, 10⟩, ⟨9, 0, 0⟩⟩ ⟨some []⟩ =
      RowOutcome.extractionError "IndexError: rows" ∧
    extractResponse "driving" "1,2" "3,4" ⟨⟨2024, 6, 10⟩, ⟨9, 0, 0⟩⟩
      ⟨some [⟨some []⟩]⟩ = RowOutcome.extractionError "IndexError: elements" :=
  ⟨(C10_malformed_response_row_scoped "driving" "1,2" "3,4"
      ⟨⟨2024, 6, 10⟩, ⟨9, 0, 0⟩⟩).1 ⟨none⟩ rfl,
   (C10_malformed_response_row_scoped "driving" "1,2" "3,4"
      ⟨⟨2024, 6, 10⟩, ⟨9, 0, 0⟩⟩).2.1 ⟨some []⟩ rfl,
   (C10_malformed_response_row_scoped "driving" "1,2" "3,4"
      ⟨⟨2024, 6, 10⟩, ⟨9, 0, 0⟩⟩).2.2.1 ⟨some [⟨some []⟩]⟩ ⟨some []⟩ [] rfl rfl⟩

end DistanceMatrix
